import Mathlib

/-!
Shallow embedding of the `MediaGallery` custom element
(`src/assets/media-gallery.js` and the unnamed variant `src/unnamed/part_000`).

JavaScript strings are modelled as `List Char`.  The DOM fragments the
component reads and mutates (media containers, thumbnail buttons, the
selected-colour label) are modelled as explicit record values, and each DOM
pass becomes a pure function from the old records to the new ones.  The two
observed variants of `filterSlidesByVariant` are embedded separately:
`PolicyA.filterSlidesByVariant` (token-set matching, from
`src/unnamed/part_000`) and `PolicyB.filterSlidesByVariant` (DOM-observed
active colour, from `src/assets/media-gallery.js`).
-/

/-- A JavaScript string, modelled as its list of characters. -/
abbrev JStr := List Char

/-- Coerce a Lean string literal to the `JStr` model. -/
def jstr (s : String) : JStr := s.data

/-- JS `String.prototype.toLowerCase` (ASCII letters, as `Char.toLower`). -/
def jsToLower (s : JStr) : JStr := s.map Char.toLower

/-- JS `String.prototype.trim`: remove leading and trailing whitespace. -/
def jsTrim (s : JStr) : JStr :=
  ((s.dropWhile Char.isWhitespace).reverse.dropWhile Char.isWhitespace).reverse

/-- JS `s.includes(pat)`: `pat` occurs in `s` as a contiguous substring. -/
def jsIncludes (s pat : JStr) : Bool :=
  match s with
  | [] => pat.isEmpty
  | _ :: rest => pat.isPrefixOf s || jsIncludes rest pat

/-- JS `a || b` restricted to strings: the empty string is falsy. -/
def jsOr (a b : JStr) : JStr := if a.isEmpty then b else a

/-- JS `(x || '')` for a possibly-`null`/`undefined` string `x`, as used for
`img.getAttribute('alt') || ''`. -/
def altOrEmpty (x : Option JStr) : JStr :=
  match x with
  | some v => jsOr v []
  | none => []

/-- JS `String(title).split(' / ')` specialised to the literal separator
`" / "` used at line 34 of `extractVariantValues`: leftmost, non-overlapping
occurrences of the three-character separator delimit the segments. -/
def splitOnSlash : JStr → List JStr
  | [] => [[]]
  | ' ' :: '/' :: ' ' :: rest => [] :: splitOnSlash rest
  | c :: rest =>
    match splitOnSlash rest with
    | [] => [[c]]
    | seg :: segs => (c :: seg) :: segs

/-- One entry of `res.selected_options`: an object whose `value` field may be
absent (`none`) or hold a string. -/
structure SelectedOption where
  value : Option JStr
deriving DecidableEq

/-- The variant resource read by `extractVariantValues`.  Every field is
optional, mirroring the loosely structured event payload; a `selected_options`
entry may itself be `null` (the inner `Option`). -/
structure Resource where
  selected_options : Option (List (Option SelectedOption))
  option1 : Option JStr
  option2 : Option JStr
  option3 : Option JStr
  title : Option JStr
deriving DecidableEq

namespace MediaGallery

/-- Lines 23–29: for each entry `opt` of `selected_options`, push
`String(opt.value)` when `opt && opt.value` is truthy (for strings: the entry
exists and its value is a non-empty string). -/
def selectedOptionValues (r : Resource) : List JStr :=
  match r.selected_options with
  | some opts =>
    opts.filterMap (fun o =>
      match o with
      | some opt =>
        match opt.value with
        | some v => if v.isEmpty then none else some v
        | none => none
      | none => none)
  | none => []

/-- Lines 30–32: push `String(res[k])` for `k` in `option1`, `option2`,
`option3` whenever `res[k]` is truthy. -/
def flatOptionValues (r : Resource) : List JStr :=
  [r.option1, r.option2, r.option3].filterMap (fun v =>
    match v with
    | some s => if s.isEmpty then none else some s
    | none => none)

/-- Lines 33–36: when no value was collected and `res.title` is truthy, push
the first segment of `String(res.title).split(' / ')` (the split is never
empty, so the `titleParts.length` guard always passes). -/
def titleFallback (r : Resource) : List JStr :=
  match r.title with
  | some t => if t.isEmpty then [] else [(splitOnSlash t).headD []]
  | none => []

/-- Lines 39–44, one iteration: skip a falsy (empty) candidate, normalise with
`String(v).trim().toLowerCase()`, keep the result only if it is non-empty. -/
def normalizeToken (v : JStr) : Option JStr :=
  if v.isEmpty then none
  else
    let s := jsToLower (jsTrim v)
    if s.isEmpty then none else some s

/-- `MediaGallery.extractVariantValues` (identical in both source files,
lines 20–46). -/
def extractVariantValues (res : Option Resource) : List JStr :=
  match res with
  | none => []
  | some r =>
    let values := selectedOptionValues r ++ flatOptionValues r
    let values := if values.isEmpty then values ++ titleFallback r else values
    values.filterMap normalizeToken

end MediaGallery

/-- A `.product-media-container` element: `img` is `none` when the container
holds no `<img>`, and otherwise carries the (possibly absent) `alt`
attribute; `display` is the element's current `style.display` value. -/
structure MediaContainer where
  img : Option (Option JStr)
  display : JStr
deriving DecidableEq

namespace PolicyA

/-- Line 94 of `src/unnamed/part_000`:
`variantValues.join(' ').toLowerCase()`. -/
def variantString (variantValues : List JStr) : JStr :=
  jsToLower (List.intercalate [' '] variantValues)

/-- Lines 97–99: the alt text matches when it contains the full joined
variant phrase or any individual value. -/
def slideMatches (variantValues : List JStr) (alt : JStr) : Bool :=
  jsIncludes alt (variantString variantValues) ||
    variantValues.any (fun val => jsIncludes alt val)

/-- Lines 87–113, one `forEach` iteration: skip a container without an image;
otherwise normalise the alt text with `.toLowerCase().trim()` and set
`style.display` to `'none'` on a mismatch and `''` on a match. -/
def applyToContainer (variantValues : List JStr) (container : MediaContainer) :
    MediaContainer :=
  match container.img with
  | none => container
  | some altAttr =>
    let alt := jsTrim (jsToLower (altOrEmpty altAttr))
    if slideMatches variantValues alt then { container with display := [] }
    else { container with display := jstr "none" }

/-- `filterSlidesByVariant` from `src/unnamed/part_000` (lines 80–114):
extract the variant values, return unchanged when none were found, otherwise
rewrite each container's display. -/
def filterSlidesByVariant (variantResource : Option Resource)
    (slideContainers : List MediaContainer) : List MediaContainer :=
  let variantValues := MediaGallery.extractVariantValues variantResource
  if variantValues.isEmpty then slideContainers
  else slideContainers.map (applyToContainer variantValues)

end PolicyA

namespace PolicyB

/-- A thumbnail `<button>` in `.slideshow-controls__thumbnails`: `img` is as
in `MediaContainer`; `ariaSelected` is the current `aria-selected`
attribute (`none` when unset). -/
structure Thumbnail where
  img : Option (Option JStr)
  display : JStr
  ariaSelected : Option JStr
deriving DecidableEq

/-- Lines 83–89 of `src/assets/media-gallery.js`: the colour name scraped
from the selected-option DOM node (`textContent.trim().toLowerCase()`),
or `''` when the node is absent. -/
def colorNameOf (colorEl : Option JStr) : JStr :=
  match colorEl with
  | some text => jsToLower (jsTrim text)
  | none => []

/-- Line 93: `colorName || variantValues[0] || ''` (an absent
`variantValues[0]` is modelled as the empty string, which JS `||` treats the
same way as `undefined` here). -/
def activeColorOf (colorEl : Option JStr) (variantResource : Option Resource) :
    JStr :=
  jsOr (jsOr (colorNameOf colorEl)
      ((MediaGallery.extractVariantValues variantResource).headD [])) []

/-- Lines 99–107, one container iteration: skip a container without an image,
otherwise show it iff its normalised alt text contains the active colour. -/
def containerStep (activeColor : JStr) (container : MediaContainer) :
    MediaContainer :=
  match container.img with
  | none => container
  | some altAttr =>
    let alt := jsTrim (jsToLower (altOrEmpty altAttr))
    let isMatch := jsIncludes alt activeColor
    { container with display := if isMatch then [] else jstr "none" }

/-- Line 112: `(thumb.querySelector('img')?.getAttribute('alt') || '')
.toLowerCase().trim()` — a thumbnail without an image yields `''`. -/
def thumbAlt (thumb : Thumbnail) : JStr :=
  jsTrim (jsToLower (match thumb.img with
    | some altAttr => altOrEmpty altAttr
    | none => []))

/-- Lines 111–116, one thumbnail iteration: hide on mismatch and set
`aria-selected` to `'true'` exactly when the thumbnail matches and sits at
index 0. -/
def thumbStep (activeColor : JStr) (index : Nat) (thumb : Thumbnail) :
    Thumbnail :=
  let isMatch := jsIncludes (thumbAlt thumb) activeColor
  { thumb with
    display := if isMatch then [] else jstr "none"
    ariaSelected :=
      some (if isMatch && index == 0 then jstr "true" else jstr "false") }

/-- `filterSlidesByVariant` from `src/assets/media-gallery.js`
(lines 80–129): derive the active colour (DOM label first, extracted values
as fallback), stop when it is empty, otherwise rewrite containers and
thumbnails.  The body runs inside `setTimeout(…, 400)`; the embedding models
the state change it performs when it runs.  The slideshow clone/replace of
lines 119–125 touches neither containers nor thumbnails and is outside the
modelled state. -/
def filterSlidesByVariant (colorEl : Option JStr)
    (variantResource : Option Resource)
    (slideContainers : List MediaContainer) (thumbButtons : List Thumbnail) :
    List MediaContainer × List Thumbnail :=
  let activeColor := activeColorOf colorEl variantResource
  if activeColor.isEmpty then (slideContainers, thumbButtons)
  else
    (slideContainers.map (containerStep activeColor),
     thumbButtons.mapIdx (thumbStep activeColor))

end PolicyB

/-- The observable state the `media-gallery` element owns: whether the
variant-update subscription registered in `connectedCallback` is still live
(the `AbortController` has not fired), the colour-label node, and the DOM
fragments the filter mutates. -/
structure GalleryState where
  listenerActive : Bool
  colorEl : Option JStr
  slideContainers : List MediaContainer
  thumbButtons : List PolicyB.Thumbnail
deriving DecidableEq

namespace GalleryElement

/-- Apply `PolicyB.filterSlidesByVariant` to the gallery's own DOM state. -/
def runFilter (resource : Option Resource) (st : GalleryState) : GalleryState :=
  let r := PolicyB.filterSlidesByVariant st.colorEl resource
    st.slideContainers st.thumbButtons
  { st with slideContainers := r.1, thumbButtons := r.2 }

/-- `#handleVariantUpdate` (lines 149–154 of `src/assets/media-gallery.js`):
`event.detail.resource || null`, filtering only when a resource is present. -/
def handleVariantUpdate (detailResource : Option Resource) (st : GalleryState) :
    GalleryState :=
  match detailResource with
  | some r => runFilter (some r) st
  | none => st

/-- Dispatching a variant-update event on the ancestor container: the handler
runs only while the subscription is live (the listener was registered with the
controller's abort signal, lines 51–54). -/
def dispatchVariantUpdate (detailResource : Option Resource)
    (st : GalleryState) : GalleryState :=
  if st.listenerActive then handleVariantUpdate detailResource st else st

/-- The subscription part of `connectedCallback` (lines 48–57): the listener
is registered on the nearest section/dialog ancestor when one exists. -/
def connectedCallback (targetExists : Bool) (st : GalleryState) : GalleryState :=
  { st with listenerActive := targetExists }

/-- `disconnectedCallback` (lines 138–142): `this.#controller.abort()`
cancels both subscriptions. -/
def disconnectedCallback (st : GalleryState) : GalleryState :=
  { st with listenerActive := false }

end GalleryElement

/-- A resource with one truthy selected-option value and a truthy
`option1`. -/
def rBlueRed : Resource :=
  { selected_options := some [some { value := some (jstr "Blue") }]
    option1 := some (jstr "Red"), option2 := none, option3 := none
    title := none }

/-- A resource whose only datum is a composite title. -/
def rTitleOnly : Resource :=
  { selected_options := none
    option1 := none, option2 := none, option3 := none
    title := some (jstr "Blue / Large") }

/-- A resource with only `option1 = "Red"`. -/
def rRed : Resource :=
  { selected_options := none, option1 := some (jstr "Red")
    option2 := none, option3 := none, title := none }

def cRedShirt : MediaContainer :=
  { img := some (some (jstr "Red Shirt")), display := [] }

def cBlueShirt : MediaContainer :=
  { img := some (some (jstr "Blue Shirt")), display := [] }

def cNoImage : MediaContainer := { img := none, display := [] }

def tNoImage : PolicyB.Thumbnail :=
  { img := none, display := [], ariaSelected := none }

def tBlue : PolicyB.Thumbnail :=
  { img := some (some (jstr "Blue")), display := [], ariaSelected := none }

def tRed : PolicyB.Thumbnail :=
  { img := some (some (jstr "Red")), display := [], ariaSelected := none }

/-! Helper lemmas about the character-level primitives. -/

/-- Lowering an ASCII upper-case letter produces a character that is already
lower case. -/
lemma toLower_ofNat_upper :
    ∀ m, m < 91 → 65 ≤ m →
      Char.toLower (Char.ofNat (m + 32)) = Char.ofNat (m + 32) := by decide

/-- Lowering an ASCII upper-case letter never yields a whitespace
character. -/
lemma ofNat_upper_not_ws :
    ∀ m, m < 91 → 65 ≤ m →
      Char.isWhitespace (Char.ofNat (m + 32)) = false := by decide

lemma char_toLower_eq (c : Char) :
    Char.toLower c =
      if c.toNat ≥ 65 ∧ c.toNat ≤ 90 then Char.ofNat (c.toNat + 32) else c :=
  rfl

lemma char_toLower_idem (c : Char) :
    Char.toLower (Char.toLower c) = Char.toLower c := by
  by_cases h : c.toNat ≥ 65 ∧ c.toNat ≤ 90
  · rw [char_toLower_eq c, if_pos h]
    exact toLower_ofNat_upper c.toNat (by omega) h.1
  · rw [char_toLower_eq c, if_neg h, char_toLower_eq c, if_neg h]

lemma char_toLower_not_ws (c : Char) (h : Char.isWhitespace c = false) :
    Char.isWhitespace (Char.toLower c) = false := by
  by_cases hc : c.toNat ≥ 65 ∧ c.toNat ≤ 90
  · rw [char_toLower_eq c, if_pos hc]
    exact ofNat_upper_not_ws c.toNat (by omega) hc.1
  · rwa [char_toLower_eq c, if_neg hc]

lemma jsToLower_idem (s : JStr) : jsToLower (jsToLower s) = jsToLower s := by
  simp only [jsToLower, List.map_map]
  exact List.map_congr_left (fun c _ => char_toLower_idem c)

/-! Helper lemmas about `jsTrim`. -/

lemma dropWhile_eq_self_of_head {p : Char → Bool} {l : JStr}
    (h : ∀ c, l.head? = some c → p c = false) :
    l.dropWhile p = l := by
  cases l with
  | nil => rfl
  | cons a t =>
    have ha : p a = false := h a rfl
    simp [List.dropWhile_cons, ha]

lemma head_of_dropWhile_not {p : Char → Bool} {l : JStr} {c : Char}
    (h : (l.dropWhile p).head? = some c) : p c = false := by
  have := List.head?_dropWhile_not p l
  rw [h] at this
  exact this

lemma getLast_of_dropWhile {p : Char → Bool} {l : JStr} {c : Char}
    (h : (l.dropWhile p).getLast? = some c) : l.getLast? = some c := by
  obtain ⟨pre, hpre⟩ := List.dropWhile_suffix (l := l) p
  have hne : l.dropWhile p ≠ [] := by
    intro hnil
    rw [hnil] at h
    exact Option.noConfusion h
  rw [← hpre, List.getLast?_append_of_ne_nil pre hne, h]

/-- A string whose first and last characters are not whitespace is a fixed
point of `jsTrim`. -/
lemma jsTrim_fix_of_ends {z : JStr}
    (hh : ∀ c, z.head? = some c → Char.isWhitespace c = false)
    (hl : ∀ c, z.getLast? = some c → Char.isWhitespace c = false) :
    jsTrim z = z := by
  unfold jsTrim
  rw [dropWhile_eq_self_of_head hh]
  rw [dropWhile_eq_self_of_head (by
    intro c hc
    rw [List.head?_reverse] at hc
    exact hl c hc)]
  exact List.reverse_reverse z

lemma jsTrim_getLast_not_ws {v : JStr} {c : Char}
    (h : (jsTrim v).getLast? = some c) : Char.isWhitespace c = false := by
  unfold jsTrim at h
  rw [List.getLast?_reverse] at h
  exact head_of_dropWhile_not h

lemma jsTrim_head_not_ws {v : JStr} {c : Char}
    (h : (jsTrim v).head? = some c) : Char.isWhitespace c = false := by
  unfold jsTrim at h
  rw [List.head?_reverse] at h
  have h2 := getLast_of_dropWhile h
  rw [List.getLast?_reverse] at h2
  exact head_of_dropWhile_not h2

/-- The normalisation `String(v).trim().toLowerCase()` used by
`extractVariantValues` produces strings that are fixed points of both
`jsToLower` and `jsTrim`. -/
lemma normalized_fixed (v : JStr) :
    jsToLower (jsToLower (jsTrim v)) = jsToLower (jsTrim v) ∧
    jsTrim (jsToLower (jsTrim v)) = jsToLower (jsTrim v) := by
  refine ⟨jsTrim v |> jsToLower_idem, ?_⟩
  apply jsTrim_fix_of_ends
  · intro c hc
    simp only [jsToLower, List.head?_map] at hc
    cases h0 : (jsTrim v).head? with
    | none => rw [h0] at hc; exact Option.noConfusion hc
    | some c0 =>
      rw [h0] at hc
      have : c = Char.toLower c0 := by
        simpa using hc.symm
      rw [this]
      exact char_toLower_not_ws c0 (jsTrim_head_not_ws h0)
  · intro c hc
    simp only [jsToLower, List.getLast?_map] at hc
    cases h0 : (jsTrim v).getLast? with
    | none => rw [h0] at hc; exact Option.noConfusion hc
    | some c0 =>
      rw [h0] at hc
      have : c = Char.toLower c0 := by
        simpa using hc.symm
      rw [this]
      exact char_toLower_not_ws c0 (jsTrim_getLast_not_ws h0)

/-- One filtering pass leaves a container whose `img` field is unchanged, so
applying it a second time recomputes the same match and the same display. -/
lemma applyToContainer_idem (vv : List JStr) (c : MediaContainer) :
    PolicyA.applyToContainer vv (PolicyA.applyToContainer vv c) =
      PolicyA.applyToContainer vv c := by
  obtain ⟨ci, cd⟩ := c
  cases ci with
  | none => rfl
  | some a =>
    simp only [PolicyA.applyToContainer]
    by_cases hm :
        PolicyA.slideMatches vv (jsTrim (jsToLower (altOrEmpty a))) = true
    · simp [hm]
    · simp [hm]

/-- Claim C7: for a `null`/absent resource, `extractVariantValues` returns
the empty list and `filterSlidesByVariant` (Policy A, the code the claim
cites) changes the visibility of no element. -/
theorem null_resource_noop :
    MediaGallery.extractVariantValues none = [] ∧
    ∀ slideContainers : List MediaContainer,
      PolicyA.filterSlidesByVariant none slideContainers = slideContainers :=
  ⟨rfl, fun _ => rfl⟩

/-- Claim C9: once `disconnectedCallback` has aborted the controller, a
variant-update event dispatched on the former ancestor container never runs
the handler: the gallery state — in particular every element's visibility —
is unchanged, and the transition is a total function (no error). -/
theorem dispatch_after_disconnect_noop (detailResource : Option Resource)
    (st : GalleryState) :
    GalleryElement.dispatchVariantUpdate detailResource
        (GalleryElement.disconnectedCallback st) =
      GalleryElement.disconnectedCallback st := rfl

/-- Claim C10: Policy A's `filterSlidesByVariant` is idempotent — a second
pass with the same resource recomputes each container's display from the
unchanged alt text and tokens, so it changes nothing further. -/
theorem filterSlidesByVariantA_idempotent (res : Option Resource)
    (cs : List MediaContainer) :
    PolicyA.filterSlidesByVariant res (PolicyA.filterSlidesByVariant res cs) =
      PolicyA.filterSlidesByVariant res cs := by
  unfold PolicyA.filterSlidesByVariant
  cases hv : (MediaGallery.extractVariantValues res).isEmpty with
  | true => simp [hv]
  | false =>
    simp only [hv, Bool.false_eq_true, if_false, List.map_map]
    exact List.map_congr_left (fun c _ => applyToContainer_idem _ c)

/-- Claim C1 (counterexample): with a truthy selected-option value `"Blue"`
and a truthy `option1 = "Red"`, extraction returns `["blue", "red"]` — the
token `"red"` derived from `option1` is included, so the result is not
exactly the selected-option values. -/
theorem extract_includes_flat_option_cex :
    MediaGallery.extractVariantValues (some rBlueRed)
        = [jstr "blue", jstr "red"] ∧
    jstr "red" ∈ MediaGallery.extractVariantValues (some rBlueRed) ∧
    MediaGallery.extractVariantValues (some rBlueRed) ≠ [jstr "blue"] := by
  decide

/-- When at least one raw value was collected, the title fallback is skipped
and extraction is the normalisation of the collected values. -/
lemma extract_of_values_ne_nil (r : Resource)
    (hne : MediaGallery.selectedOptionValues r ++
      MediaGallery.flatOptionValues r ≠ []) :
    MediaGallery.extractVariantValues (some r) =
      (MediaGallery.selectedOptionValues r ++
        MediaGallery.flatOptionValues r).filterMap MediaGallery.normalizeToken := by
  have hv : (MediaGallery.selectedOptionValues r ++
      MediaGallery.flatOptionValues r).isEmpty = false :=
    List.isEmpty_eq_false.mpr hne
  simp only [MediaGallery.extractVariantValues, hv, Bool.false_eq_true,
    if_false]

/-- Claim C1 (amended): for every resource with at least one truthy
`selected_options` value, `extractVariantValues` returns the normalisation
(trim, lowercase, drop-empty) of those values followed by the truthy
`option1`–`option3` values, in that order, and the title is never
consulted. -/
theorem extract_selected_then_flat (r : Resource)
    (h : MediaGallery.selectedOptionValues r ≠ []) :
    MediaGallery.extractVariantValues (some r) =
      (MediaGallery.selectedOptionValues r ++
        MediaGallery.flatOptionValues r).filterMap MediaGallery.normalizeToken ∧
    ∀ t, MediaGallery.extractVariantValues (some { r with title := t }) =
      MediaGallery.extractVariantValues (some r) := by
  have hne : MediaGallery.selectedOptionValues r ++
      MediaGallery.flatOptionValues r ≠ [] := by
    intro hx
    rw [List.append_eq_nil] at hx
    exact h hx.1
  refine ⟨extract_of_values_ne_nil r hne, ?_⟩
  intro t
  rw [extract_of_values_ne_nil { r with title := t } hne,
    extract_of_values_ne_nil r hne]
  rfl

/-- Claim C1 (witness): the amended claim at the counterexample resource. -/
theorem extract_selected_then_flat_witness :
    MediaGallery.selectedOptionValues rBlueRed ≠ [] ∧
    MediaGallery.extractVariantValues (some rBlueRed) =
      (MediaGallery.selectedOptionValues rBlueRed ++
        MediaGallery.flatOptionValues rBlueRed).filterMap
        MediaGallery.normalizeToken ∧
    MediaGallery.extractVariantValues
        (some { rBlueRed with title := some (jstr "Green / Small") }) =
      MediaGallery.extractVariantValues (some rBlueRed) :=
  ⟨by decide, (extract_selected_then_flat rBlueRed (by decide)).1,
   (extract_selected_then_flat rBlueRed (by decide)).2
     (some (jstr "Green / Small"))⟩

/-- Claim C5: when no raw value was collected and the title is truthy,
extraction normalises exactly the first `" / "`-separated segment of the
title. -/
theorem extract_title_first_segment (r : Resource) (t : JStr)
    (hsel : MediaGallery.selectedOptionValues r = [])
    (hflat : MediaGallery.flatOptionValues r = [])
    (ht : r.title = some t) (hne : t ≠ []) :
    MediaGallery.extractVariantValues (some r) =
      List.filterMap MediaGallery.normalizeToken
        [(splitOnSlash t).headD []] := by
  have hte : t.isEmpty = false := List.isEmpty_eq_false.mpr hne
  simp [MediaGallery.extractVariantValues, hsel, hflat,
    MediaGallery.titleFallback, ht, hte]

/-- Claim C5 (witness): a resource with only `title = "Blue / Large"` yields
`["blue"]`. -/
theorem extract_title_first_segment_witness :
    MediaGallery.selectedOptionValues rTitleOnly = [] ∧
    MediaGallery.flatOptionValues rTitleOnly = [] ∧
    rTitleOnly.title = some (jstr "Blue / Large") ∧
    jstr "Blue / Large" ≠ [] ∧
    MediaGallery.extractVariantValues (some rTitleOnly) =
      List.filterMap MediaGallery.normalizeToken
        [(splitOnSlash (jstr "Blue / Large")).headD []] ∧
    MediaGallery.extractVariantValues (some rTitleOnly) = [jstr "blue"] :=
  ⟨rfl, rfl, rfl, by decide,
   extract_title_first_segment rTitleOnly (jstr "Blue / Large") rfl rfl rfl
     (by decide),
   by decide⟩

/-- Claim C4: under Policy A, a container with an image is shown exactly when
its normalised alt text contains the space-joined variant string or any
individual token (`slideMatches`), and is hidden otherwise. -/
theorem filterA_container_display (res : Option Resource)
    (cs : List MediaContainer) (i : Nat) (c : MediaContainer)
    (a : Option JStr)
    (hvv : MediaGallery.extractVariantValues res ≠ [])
    (hc : cs[i]? = some c) (himg : c.img = some a) :
    (PolicyA.filterSlidesByVariant res cs)[i]? =
      some { c with display :=
        (if (PolicyA.slideMatches (MediaGallery.extractVariantValues res)
            (jsTrim (jsToLower (altOrEmpty a)))) = true
          then [] else jstr "none") } := by
  have hv : (MediaGallery.extractVariantValues res).isEmpty = false :=
    List.isEmpty_eq_false.mpr hvv
  unfold PolicyA.filterSlidesByVariant
  simp only [hv, Bool.false_eq_true, if_false, List.getElem?_map, hc,
    Option.map_some']
  congr 1
  obtain ⟨ci, cd⟩ := c
  cases himg
  simp only [PolicyA.applyToContainer]
  split <;> simp_all

/-- Claim C4 (witness): with alt texts `"Red Shirt"`, `"Blue Shirt"` and the
single active token `"red"`, the first container is shown and the second is
hidden. -/
theorem filterA_container_display_witness :
    MediaGallery.extractVariantValues (some rRed) ≠ [] ∧
    [cRedShirt, cBlueShirt][0]? = some cRedShirt ∧
    cRedShirt.img = some (some (jstr "Red Shirt")) ∧
    (PolicyA.filterSlidesByVariant (some rRed) [cRedShirt, cBlueShirt])[0]? =
      some { cRedShirt with display :=
        (if (PolicyA.slideMatches (MediaGallery.extractVariantValues (some rRed))
            (jsTrim (jsToLower (altOrEmpty (some (jstr "Red Shirt")))))) = true
          then [] else jstr "none") } ∧
    (PolicyA.filterSlidesByVariant (some rRed) [cRedShirt, cBlueShirt])[0]? =
      some { cRedShirt with display := [] } ∧
    (PolicyA.filterSlidesByVariant (some rRed) [cRedShirt, cBlueShirt])[1]? =
      some { cBlueShirt with display := jstr "none" } :=
  ⟨by decide, rfl, rfl,
   filterA_container_display (some rRed) [cRedShirt, cBlueShirt] 0 cRedShirt
     (some (jstr "Red Shirt")) (by decide) rfl rfl,
   by decide, by decide⟩

/-- Claim C8: a resource yielding zero tokens makes Policy A's pass a no-op,
and under Policy B a zero-token resource together with an empty DOM colour
label makes the pass a no-op as well. -/
theorem zero_tokens_noop (res : Option Resource) (colorEl : Option JStr)
    (cs : List MediaContainer) (ts : List PolicyB.Thumbnail)
    (h : MediaGallery.extractVariantValues res = []) :
    PolicyA.filterSlidesByVariant res cs = cs ∧
    (PolicyB.colorNameOf colorEl = [] →
      PolicyB.filterSlidesByVariant colorEl res cs ts = (cs, ts)) := by
  constructor
  · unfold PolicyA.filterSlidesByVariant
    simp [h]
  · intro hq
    have hac : PolicyB.activeColorOf colorEl res = [] := by
      simp [PolicyB.activeColorOf, hq, h, jsOr]
    unfold PolicyB.filterSlidesByVariant
    simp [hac]

/-- Claim C2 (counterexample): under Policy B, a thumbnail without an image
(initially visible, `display = ''`) is hidden by the filtering pass, so an
element whose alt text cannot be determined is not left in its current
visibility state. -/
theorem imageless_thumb_hidden_cex :
    tNoImage.img = none ∧ tNoImage.display = [] ∧
    (PolicyB.filterSlidesByVariant none (some rRed) [] [tNoImage]).2 =
      [{ img := none
         display := jstr "none"
         ariaSelected := some (jstr "false") }] := by decide

/-- Claim C2 (amended): containers without an image are left untouched by
both policies, but under Policy B a thumbnail without an image is treated as
having empty alt text and is hidden (and marked not-selected) whenever the
active colour is non-empty. -/
theorem imageless_elements (colorEl : Option JStr) (res : Option Resource)
    (cs : List MediaContainer) (ts : List PolicyB.Thumbnail) :
    (∀ (i : Nat) (c : MediaContainer), cs[i]? = some c → c.img = none →
      (PolicyA.filterSlidesByVariant res cs)[i]? = some c) ∧
    (∀ (i : Nat) (c : MediaContainer), cs[i]? = some c → c.img = none →
      (PolicyB.filterSlidesByVariant colorEl res cs ts).1[i]? = some c) ∧
    (PolicyB.activeColorOf colorEl res ≠ [] →
      ∀ (i : Nat) (th : PolicyB.Thumbnail), ts[i]? = some th → th.img = none →
        (PolicyB.filterSlidesByVariant colorEl res cs ts).2[i]? =
          some { th with
                 display := jstr "none"
                 ariaSelected := some (jstr "false") }) := by
  refine ⟨?_, ?_, ?_⟩
  · intro i c hc himg
    unfold PolicyA.filterSlidesByVariant
    cases hv : (MediaGallery.extractVariantValues res).isEmpty with
    | true => simp [hv, hc]
    | false =>
      simp only [hv, Bool.false_eq_true, if_false, List.getElem?_map, hc,
        Option.map_some']
      simp [PolicyA.applyToContainer, himg]
  · intro i c hc himg
    unfold PolicyB.filterSlidesByVariant
    cases hv : (PolicyB.activeColorOf colorEl res).isEmpty with
    | true => simp [hv, hc]
    | false =>
      simp only [hv, Bool.false_eq_true, if_false, List.getElem?_map, hc,
        Option.map_some']
      simp [PolicyB.containerStep, himg]
  · intro hac i th hi himg
    have hv : (PolicyB.activeColorOf colorEl res).isEmpty = false :=
      List.isEmpty_eq_false.mpr hac
    unfold PolicyB.filterSlidesByVariant
    simp only [hv, Bool.false_eq_true, if_false, List.getElem?_mapIdx, hi,
      Option.map_some']
    have ha : PolicyB.thumbAlt th = [] := by
      simp [PolicyB.thumbAlt, himg, jsTrim, jsToLower]
    simp [PolicyB.thumbStep, ha, jsIncludes, hv]

/-- Claim C2 (witness): the amended behaviour at a concrete imageless
container and thumbnail with active colour `"red"`. -/
theorem imageless_elements_witness :
    (PolicyA.filterSlidesByVariant (some rRed) [cNoImage])[0]? =
      some cNoImage ∧
    (PolicyB.filterSlidesByVariant none (some rRed) [cNoImage]
      [tNoImage]).1[0]? = some cNoImage ∧
    PolicyB.activeColorOf none (some rRed) ≠ [] ∧
    (PolicyB.filterSlidesByVariant none (some rRed) [cNoImage]
      [tNoImage]).2[0]? =
      some { tNoImage with
             display := jstr "none"
             ariaSelected := some (jstr "false") } :=
  ⟨(imageless_elements none (some rRed) [cNoImage] [tNoImage]).1 0 cNoImage
     rfl rfl,
   (imageless_elements none (some rRed) [cNoImage] [tNoImage]).2.1 0 cNoImage
     rfl rfl,
   by decide,
   (imageless_elements none (some rRed) [cNoImage] [tNoImage]).2.2 (by decide)
     0 tNoImage rfl rfl⟩

/-- Claim C3 (counterexample): with thumbnails `["Blue", "Red"]` and active
colour `"red"`, the first matching thumbnail is the one at index 1, yet no
thumbnail is marked selected: `aria-selected` is `'false'` on both. -/
theorem first_matching_thumb_not_selected_cex :
    PolicyB.activeColorOf none (some rRed) = jstr "red" ∧
    jsIncludes (PolicyB.thumbAlt tBlue) (jstr "red") = false ∧
    jsIncludes (PolicyB.thumbAlt tRed) (jstr "red") = true ∧
    ((PolicyB.filterSlidesByVariant none (some rRed) [] [tBlue, tRed]).2).map
        (fun th => th.ariaSelected) =
      [some (jstr "false"), some (jstr "false")] := by decide

/-- Claim C3 (amended): with a non-empty active colour, every thumbnail is
rewritten by `thumbStep`, whose `aria-selected` is `'true'` exactly when the
thumbnail matches the active colour AND sits at index 0; every thumbnail at a
later index is marked `'false'` even when it is the first match. -/
theorem thumb_aria_selected (colorEl : Option JStr) (res : Option Resource)
    (cs : List MediaContainer) (ts : List PolicyB.Thumbnail)
    (hac : PolicyB.activeColorOf colorEl res ≠ []) (i : Nat)
    (th : PolicyB.Thumbnail) (hi : ts[i]? = some th) :
    (PolicyB.filterSlidesByVariant colorEl res cs ts).2[i]? =
      some (PolicyB.thumbStep (PolicyB.activeColorOf colorEl res) i th) ∧
    (PolicyB.thumbStep (PolicyB.activeColorOf colorEl res) i th).ariaSelected
      = some (if jsIncludes (PolicyB.thumbAlt th)
            (PolicyB.activeColorOf colorEl res) && i == 0
          then jstr "true" else jstr "false") := by
  have hv : (PolicyB.activeColorOf colorEl res).isEmpty = false :=
    List.isEmpty_eq_false.mpr hac
  constructor
  · unfold PolicyB.filterSlidesByVariant
    simp [hv, hi]
  · rfl

/-- Claim C3 (witness): the amended behaviour at thumbnail index 1 of
`["Blue", "Red"]` with active colour `"red"`. -/
theorem thumb_aria_selected_witness :
    PolicyB.activeColorOf none (some rRed) ≠ [] ∧
    [tBlue, tRed][1]? = some tRed ∧
    (PolicyB.filterSlidesByVariant none (some rRed) [] [tBlue, tRed]).2[1]? =
      some (PolicyB.thumbStep (PolicyB.activeColorOf none (some rRed)) 1
        tRed) ∧
    (PolicyB.thumbStep (PolicyB.activeColorOf none (some rRed)) 1
        tRed).ariaSelected =
      some (if jsIncludes (PolicyB.thumbAlt tRed)
            (PolicyB.activeColorOf none (some rRed)) && 1 == 0
          then jstr "true" else jstr "false") :=
  ⟨by decide, rfl,
   (thumb_aria_selected none (some rRed) [] [tBlue, tRed] (by decide) 1 tRed
     rfl).1,
   (thumb_aria_selected none (some rRed) [] [tBlue, tRed] (by decide) 1 tRed
     rfl).2⟩

/-- Claim C6: every token returned by `extractVariantValues` is non-empty, a
fixed point of `jsToLower` (already lower case) and a fixed point of `jsTrim`
(already whitespace-trimmed). -/
theorem extract_tokens_invariant (res : Option Resource) (s : JStr)
    (hs : s ∈ MediaGallery.extractVariantValues res) :
    s ≠ [] ∧ jsToLower s = s ∧ jsTrim s = s := by
  have hv : ∃ v, MediaGallery.normalizeToken v = some s := by
    cases res with
    | none => simp [MediaGallery.extractVariantValues] at hs
    | some r =>
      simp only [MediaGallery.extractVariantValues, List.mem_filterMap] at hs
      obtain ⟨v, _, hv⟩ := hs
      exact ⟨v, hv⟩
  obtain ⟨v, hv⟩ := hv
  unfold MediaGallery.normalizeToken at hv
  by_cases h1 : v.isEmpty = true
  · simp [h1] at hv
  · simp only [h1, Bool.false_eq_true, if_false] at hv
    by_cases h2 : (jsToLower (jsTrim v)).isEmpty = true
    · simp [h2] at hv
    · simp only [h2, Bool.false_eq_true, if_false, Option.some.injEq] at hv
      subst hv
      refine ⟨?_, (normalized_fixed v).1, (normalized_fixed v).2⟩
      intro hnil
      rw [hnil] at h2
      exact h2 rfl

/-- Claim C6 (witness): the invariant at the concrete token `"red"` extracted
from `option1 = "Red"`. -/
theorem extract_tokens_invariant_witness :
    jstr "red" ∈ MediaGallery.extractVariantValues (some rRed) ∧
    (jstr "red" ≠ [] ∧ jsToLower (jstr "red") = jstr "red" ∧
      jsTrim (jstr "red") = jstr "red") :=
  ⟨by decide,
   extract_tokens_invariant (some rRed) (jstr "red") (by decide)⟩

/-- Claim C8 (witness): the no-op at a concrete null resource, absent colour
label and a non-trivial DOM. -/
theorem zero_tokens_noop_witness :
    MediaGallery.extractVariantValues none = [] ∧
    PolicyA.filterSlidesByVariant none [cBlueShirt] = [cBlueShirt] ∧
    PolicyB.filterSlidesByVariant none none [cBlueShirt] [] =
      ([cBlueShirt], []) :=
  ⟨rfl, (zero_tokens_noop none none [cBlueShirt] [] rfl).1,
   (zero_tokens_noop none none [cBlueShirt] [] rfl).2 rfl⟩

